import Mathlib

/-!
The espeak JNI bridge, `android/app/src/main/cpp/espeak_jni.c`.

A shallow embedding of the three JNI entry points of `espeak_jni.c` and of the
file-static flag `voice_initialized`.

The bridge only talks to two collaborators: the JNI environment (string
acquisition, release and creation) and the espeak-ng engine.  Both are
represented by an `Env` of answer functions; every answer may depend on the
whole log of earlier calls, so an `Env` is an arbitrary deterministic
collaborator.  Each external call is appended to a log together with the JNI
function that issued it and the value that `voice_initialized` had at that
moment, so that the order of calls and the state seen at each call can be
stated.

Managed strings (`jstring`) are `Option String` (`none` is a null reference),
native strings (`const char *`) are `Option String` (`none` is `NULL`), and the
C `int`s are `Int` (the code does no arithmetic on them).
-/

namespace EspeakJni

/-- The JNI function of `espeak_jni.c` that is executing. -/
inductive Site where
  | nativeInitialize
  | nativeTextToPhonemes
  | nativeSetVoiceByName
  deriving DecidableEq, Repr

/-- One call that leaves `espeak_jni.c`, with its arguments and its answer. -/
inductive Call where
  | GetStringUTFChars (s : String) (ret : Option String)
  | ReleaseStringUTFChars (s : Option String) (p : String)
  | NewStringUTF (p : String) (ret : Option String)
  | espeak_Initialize (output bufLength : Int) (path : Option String) (options : Int) (ret : Int)
  | espeak_SetVoiceByName (name : String) (ret : Int)
  | espeak_TextToPhonemes (text : String) (textMode phonemeMode : Int) (ret : Option String)
  deriving DecidableEq, Repr

/-- A logged call: who issued it, what it was, and the value of
`voice_initialized` when it was issued. -/
structure Entry where
  site : Site
  call : Call
  flag : Int
  deriving DecidableEq, Repr

/-- The collaborators of the bridge.  `EE_OK` and `EE_INTERNAL_ERROR` are the two
constants of the engine's `espeak_ERROR` enumeration that the file uses; their
values belong to the engine's header and are left arbitrary.  Every answer
function receives the log of all earlier calls. -/
structure Env where
  EE_OK : Int
  EE_INTERNAL_ERROR : Int
  GetStringUTFChars : List Entry → String → Option String
  NewStringUTF : List Entry → String → Option String
  espeak_Initialize : List Entry → Int → Int → Option String → Int → Int
  espeak_SetVoiceByName : List Entry → String → Int
  espeak_TextToPhonemes : List Entry → String → Int → Int → Option String

/-- The process state that the file owns (`static int voice_initialized`) and
the log of external calls made so far, oldest first. -/
structure Machine where
  voice_initialized : Int
  log : List Entry
  deriving DecidableEq, Repr

/-- State at process start: a C static `int` is zero-initialised. -/
def Machine.init : Machine := { voice_initialized := 0, log := [] }

/-- The spec's `voice_ready`: the C truth value of `voice_initialized`. -/
def Machine.voice_ready (m : Machine) : Bool := decide (m.voice_initialized ≠ 0)

/-- Append a call to the log, stamped with the current flag. -/
def Machine.record (m : Machine) (site : Site) (c : Call) : Machine :=
  { m with log := m.log ++ [{ site := site, call := c, flag := m.voice_initialized }] }

/-- The JNI call `(*env)->GetStringUTFChars(env, s, NULL)`. -/
def jniGetStringUTFChars (w : Env) (site : Site) (s : String) (m : Machine) :
    Option String × Machine :=
  (w.GetStringUTFChars m.log s, m.record site (.GetStringUTFChars s (w.GetStringUTFChars m.log s)))

/-- The JNI call `(*env)->ReleaseStringUTFChars(env, s, p)`. -/
def jniReleaseStringUTFChars (site : Site) (s : Option String) (p : String) (m : Machine) :
    Machine :=
  m.record site (.ReleaseStringUTFChars s p)

/-- The JNI call `(*env)->NewStringUTF(env, p)`. -/
def jniNewStringUTF (w : Env) (site : Site) (p : String) (m : Machine) :
    Option String × Machine :=
  (w.NewStringUTF m.log p, m.record site (.NewStringUTF p (w.NewStringUTF m.log p)))

/-- The engine call `espeak_Initialize(output, bufLength, path, options)`. -/
def engineInitialize (w : Env) (site : Site) (output bufLength : Int) (path : Option String)
    (options : Int) (m : Machine) : Int × Machine :=
  (w.espeak_Initialize m.log output bufLength path options,
   m.record site (.espeak_Initialize output bufLength path options
     (w.espeak_Initialize m.log output bufLength path options)))

/-- The engine call `espeak_SetVoiceByName(name)`. -/
def engineSetVoiceByName (w : Env) (site : Site) (name : String) (m : Machine) :
    Int × Machine :=
  (w.espeak_SetVoiceByName m.log name,
   m.record site (.espeak_SetVoiceByName name (w.espeak_SetVoiceByName m.log name)))

/-- The engine call `espeak_TextToPhonemes(&tp, textMode, phonemeMode)` with
`tp` pointing at `text`. -/
def engineTextToPhonemes (w : Env) (site : Site) (text : String) (textMode phonemeMode : Int)
    (m : Machine) : Option String × Machine :=
  (w.espeak_TextToPhonemes m.log text textMode phonemeMode,
   m.record site (.espeak_TextToPhonemes text textMode phonemeMode
     (w.espeak_TextToPhonemes m.log text textMode phonemeMode)))

/-- `nativeInitialize` (lines 14-23).
```
const char *p = path ? GetStringUTFChars(env, path, NULL) : NULL;
int r = espeak_Initialize(output, bufLength, p, options);
if (r > 0 && espeak_SetVoiceByName("en") == EE_OK) voice_initialized = 1;
if (p) ReleaseStringUTFChars(env, path, p);
return r;
``` -/
def nativeInitialize (w : Env) (output bufLength : Int) (path : Option String) (options : Int)
    (m : Machine) : Int × Machine :=
  let a : Option String × Machine :=
    match path with
    | some s => jniGetStringUTFChars w .nativeInitialize s m
    | none => (none, m)
  let b := engineInitialize w .nativeInitialize output bufLength a.1 options a.2
  let m3 : Machine :=
    if 0 < b.1 then
      let c := engineSetVoiceByName w .nativeInitialize "en" b.2
      if c.1 = w.EE_OK then { c.2 with voice_initialized := 1 } else c.2
    else b.2
  let m4 : Machine :=
    match a.1 with
    | some q => jniReleaseStringUTFChars .nativeInitialize path q m3
    | none => m3
  (b.1, m4)

/-- `nativeTextToPhonemes` (lines 25-38).
```
if (!text) return NULL;
const char *t = GetStringUTFChars(env, text, NULL);
if (!t) return NULL;
if (!voice_initialized && espeak_SetVoiceByName("en") == EE_OK) voice_initialized = 1;
const void *tp = t;
const char *ph = espeak_TextToPhonemes(&tp, textMode, phonemeMode);
jstring res = ph ? NewStringUTF(env, ph) : NULL;
ReleaseStringUTFChars(env, text, t);
return res;
``` -/
def nativeTextToPhonemes (w : Env) (text : Option String) (textMode phonemeMode : Int)
    (m : Machine) : Option String × Machine :=
  match text with
  | none => (none, m)
  | some s =>
    let a := jniGetStringUTFChars w .nativeTextToPhonemes s m
    match a.1 with
    | none => (none, a.2)
    | some t =>
      let m2 : Machine :=
        if a.2.voice_initialized = 0 then
          let c := engineSetVoiceByName w .nativeTextToPhonemes "en" a.2
          if c.1 = w.EE_OK then { c.2 with voice_initialized := 1 } else c.2
        else a.2
      let d := engineTextToPhonemes w .nativeTextToPhonemes t textMode phonemeMode m2
      let e : Option String × Machine :=
        match d.1 with
        | some ph => jniNewStringUTF w .nativeTextToPhonemes ph d.2
        | none => (none, d.2)
      (e.1, jniReleaseStringUTFChars .nativeTextToPhonemes text t e.2)

/-- `nativeSetVoiceByName` (lines 40-51).
```
if (!voiceName) return EE_INTERNAL_ERROR;
const char *v = GetStringUTFChars(env, voiceName, NULL);
if (!v) return EE_INTERNAL_ERROR;
int r = espeak_SetVoiceByName(v);
voice_initialized = (r == EE_OK);
ReleaseStringUTFChars(env, voiceName, v);
return r;
``` -/
def nativeSetVoiceByName (w : Env) (voiceName : Option String) (m : Machine) : Int × Machine :=
  match voiceName with
  | none => (w.EE_INTERNAL_ERROR, m)
  | some s =>
    let a := jniGetStringUTFChars w .nativeSetVoiceByName s m
    match a.1 with
    | none => (w.EE_INTERNAL_ERROR, a.2)
    | some v =>
      let c := engineSetVoiceByName w .nativeSetVoiceByName v a.2
      let m2 : Machine := { c.2 with voice_initialized := if c.1 = w.EE_OK then 1 else 0 }
      (c.1, jniReleaseStringUTFChars .nativeSetVoiceByName voiceName v m2)

/-- A call made by the managed side into the bridge. -/
inductive Op where
  | nativeInitialize (output bufLength : Int) (path : Option String) (options : Int)
  | nativeTextToPhonemes (text : Option String) (textMode phonemeMode : Int)
  | nativeSetVoiceByName (voiceName : Option String)
  deriving DecidableEq, Repr

/-- Run one managed-side call, keeping only the resulting state. -/
def step (w : Env) (m : Machine) : Op → Machine
  | .nativeInitialize output bufLength path options =>
      (nativeInitialize w output bufLength path options m).2
  | .nativeTextToPhonemes text textMode phonemeMode =>
      (nativeTextToPhonemes w text textMode phonemeMode m).2
  | .nativeSetVoiceByName voiceName => (nativeSetVoiceByName w voiceName m).2

/-- Run a finite sequence of managed-side calls, first to last. -/
def run (w : Env) (m : Machine) (ops : List Op) : Machine :=
  ops.foldl (step w) m

/-! ## Observations on logs -/

/-- The entries that a computation from `m` to `m2` appended to the log. -/
def emitted (m m2 : Machine) : List Entry := m2.log.drop m.log.length

/-- Is this a call into the espeak-ng engine? -/
def Call.isEngine : Call → Bool
  | .espeak_Initialize .. => true
  | .espeak_SetVoiceByName .. => true
  | .espeak_TextToPhonemes .. => true
  | _ => false

/-- The engine calls of a log, in order. -/
def engineCalls (l : List Entry) : List Call :=
  (l.map Entry.call).filter Call.isEngine

/-- The voice-selection attempts of a log, in order: issuing JNI function,
voice name and status returned by the engine. -/
def voiceSelections (l : List Entry) : List (Site × String × Int) :=
  l.filterMap fun e =>
    match e.call with
    | .espeak_SetVoiceByName n r => some (e.site, n, r)
    | _ => none

/-- The status returned by the most recent voice-selection attempt, if any. -/
def lastSelectionStatus (l : List Entry) : Option Int :=
  (voiceSelections l).getLast?.map fun a => a.2.2

/-- The attempts that count for the flag: all of them except the default
selections inside `nativeInitialize` that did not return `EE_OK`. -/
def countedSelections (w : Env) (l : List Entry) : List (Site × String × Int) :=
  (voiceSelections l).filter fun a => !(a.1 = Site.nativeInitialize ∧ a.2.2 ≠ w.EE_OK)

/-- The status of the most recent counted attempt, if any. -/
def lastCountedStatus (w : Env) (l : List Entry) : Option Int :=
  (countedSelections w l).getLast?.map fun a => a.2.2

/-- Acquire/release bookkeeping for native string views.  `held` is the list of
views currently acquired (managed string, native chars).  A successful
`GetStringUTFChars` adds a view; a `ReleaseStringUTFChars` must name a held
view, which it removes; any other call leaves `held` alone.  The result is
`none` as soon as a release names a view that is not held. -/
def viewsAfter : List (String × String) → List Call → Option (List (String × String))
  | held, [] => some held
  | held, .GetStringUTFChars s (some p) :: rest => viewsAfter ((s, p) :: held) rest
  | held, .ReleaseStringUTFChars (some s) p :: rest =>
      if (s, p) ∈ held then viewsAfter (held.erase (s, p)) rest else none
  | _, .ReleaseStringUTFChars none _ :: _ => none
  | held, _ :: rest => viewsAfter held rest

/-- A log is leak-free when, starting with nothing held, every release names a
held view and nothing is held at the end. -/
def leakFree (l : List Entry) : Bool :=
  viewsAfter [] (l.map Entry.call) == some []

/-- The text-to-phoneme calls of a log, in order. -/
def phonemeCalls (l : List Entry) : List Call :=
  (l.map Entry.call).filter fun c =>
    match c with
    | .espeak_TextToPhonemes .. => true
    | _ => false

/-- The value of `voice_initialized` at each text-to-phoneme call of a log. -/
def phonemeCallFlags (l : List Entry) : List Int :=
  l.filterMap fun e =>
    match e.call with
    | .espeak_TextToPhonemes .. => some e.flag
    | _ => none

/-- The managed-string creations of a log, in order. -/
def newStringCalls (l : List Entry) : List Call :=
  (l.map Entry.call).filter fun c =>
    match c with
    | .NewStringUTF .. => true
    | _ => false

/-- The flag agrees with the most recent counted voice selection: it is set
exactly when that selection returned `EE_OK`. -/
def FlagTracksSelections (w : Env) (m : Machine) : Prop :=
  m.voice_ready = true ↔ lastCountedStatus w m.log = some w.EE_OK

/-- A state in which a voice has already been selected. -/
def Machine.ready : Machine := { voice_initialized := 1, log := [] }

/-- Does the answer recorded in a call agree with what the collaborators of
`w` answer to that call when the log so far is `hist`?  A release has no
answer. -/
def Call.answered (w : Env) (hist : List Entry) : Call → Bool
  | .GetStringUTFChars s ret => decide (ret = w.GetStringUTFChars hist s)
  | .ReleaseStringUTFChars _ _ => true
  | .NewStringUTF p ret => decide (ret = w.NewStringUTF hist p)
  | .espeak_Initialize output bufLength path options ret =>
      decide (ret = w.espeak_Initialize hist output bufLength path options)
  | .espeak_SetVoiceByName name ret => decide (ret = w.espeak_SetVoiceByName hist name)
  | .espeak_TextToPhonemes text textMode phonemeMode ret =>
      decide (ret = w.espeak_TextToPhonemes hist text textMode phonemeMode)

/-- Every entry of `l` records the answer that the collaborators of `w` give
to its call on the log as it stood at that call: `hist` followed by the
entries of `l` before it. -/
def answeredFrom (w : Env) : List Entry → List Entry → Bool
  | _, [] => true
  | hist, e :: rest => e.call.answered w hist && answeredFrom w (hist ++ [e]) rest

/-- The entries logged by the acquisition of the managed string `j` at `site`
in state `m`: none for a null reference, otherwise the `GetStringUTFChars`
entry with the answer of the JNI environment. -/
def acquireEntries (w : Env) (site : Site) (j : Option String) (m : Machine) : List Entry :=
  match j with
  | none => []
  | some s => [⟨site, .GetStringUTFChars s (w.GetStringUTFChars m.log s), m.voice_initialized⟩]

/-! ## Concrete collaborators used to evaluate the bridge -/

/-- An engine and JNI environment in which everything succeeds: status codes as
in `speak_lib.h` (`EE_OK = 0`, `EE_INTERNAL_ERROR = -1`), initialisation
returns the sample rate 22050, phonemes are the text itself. -/
def envOk : Env where
  EE_OK := 0
  EE_INTERNAL_ERROR := -1
  GetStringUTFChars := fun _ s => some s
  NewStringUTF := fun _ p => some p
  espeak_Initialize := fun _ _ _ _ _ => 22050
  espeak_SetVoiceByName := fun _ _ => 0
  espeak_TextToPhonemes := fun _ t _ _ => some t

/-- As `envOk`, but every voice selection fails with `EE_NOT_FOUND = 2`. -/
def envNoVoice : Env := { envOk with espeak_SetVoiceByName := fun _ _ => 2 }

/-- As `envOk`, but every string acquisition fails. -/
def envNoChars : Env := { envOk with GetStringUTFChars := fun _ _ => none }

/-- As `envOk`, but initialisation fails with `EE_INTERNAL_ERROR`. -/
def envNoInit : Env := { envOk with espeak_Initialize := fun _ _ _ _ _ => -1 }

/-- As `envOk`, but a voice can only be selected early in the process: once two
external calls are logged, voice selection answers `EE_NOT_FOUND = 2`. -/
def envEarlyVoice : Env :=
  { envOk with espeak_SetVoiceByName := fun l _ => if l.length ≤ 1 then 0 else 2 }

/-- As `envOk`, but the engine finds no phonemes. -/
def envNoPhonemes : Env := { envOk with espeak_TextToPhonemes := fun _ _ _ _ => none }


/-! ## Helper lemmas -/

/-- The most recent counted status of a log extended by further entries is the
one found in the extension, if there is one, and the earlier one otherwise. -/
theorem lastCountedStatus_append (w : Env) (l l2 : List Entry) :
    lastCountedStatus w (l ++ l2) = (lastCountedStatus w l2).or (lastCountedStatus w l) := by
  simp only [lastCountedStatus, countedSelections, voiceSelections, List.filterMap_append,
    List.filter_append, List.getLast?_append]
  cases (List.filter (fun a => !decide (a.1 = Site.nativeInitialize ∧ a.2.2 ≠ w.EE_OK))
      (List.filterMap (fun e => match e.call with
        | Call.espeak_SetVoiceByName n r => some (e.site, n, r)
        | _ => none) l2)).getLast? <;> simp

/-- Every managed-side call preserves `FlagTracksSelections`. -/
theorem step_tracks (w : Env) (m : Machine) (op : Op) (h : FlagTracksSelections w m) :
    FlagTracksSelections w (step w m op) := by
  unfold FlagTracksSelections at h ⊢
  rcases op with ⟨o, b, path, opts⟩ | ⟨text, tm, pm⟩ | ⟨name⟩
  · rcases path with _ | s
    · simp only [step, nativeInitialize, engineInitialize, engineSetVoiceByName, Machine.record]
      split_ifs with h1 h2 <;>
        simp_all [lastCountedStatus_append, lastCountedStatus, countedSelections, voiceSelections,
          Machine.voice_ready]
    · rcases Option.eq_none_or_eq_some (w.GetStringUTFChars m.log s) with hg | ⟨p, hg⟩ <;>
      · simp only [step, nativeInitialize, engineInitialize, engineSetVoiceByName, Machine.record,
          jniGetStringUTFChars, jniReleaseStringUTFChars, hg]
        split_ifs with h1 h2 <;>
          simp_all [lastCountedStatus_append, lastCountedStatus, countedSelections,
            voiceSelections, Machine.voice_ready]
  · rcases text with _ | s
    · simpa [step, nativeTextToPhonemes] using h
    · rcases Option.eq_none_or_eq_some (w.GetStringUTFChars m.log s) with hg | ⟨t, hg⟩
      · simp_all [step, nativeTextToPhonemes, jniGetStringUTFChars, Machine.record,
          lastCountedStatus_append, lastCountedStatus, countedSelections, voiceSelections,
          Machine.voice_ready]
      · simp only [step, nativeTextToPhonemes, engineTextToPhonemes, engineSetVoiceByName,
          Machine.record, jniGetStringUTFChars, jniReleaseStringUTFChars, jniNewStringUTF, hg]
        split_ifs with h1 h2 <;> split <;>
          simp_all [lastCountedStatus_append, lastCountedStatus, countedSelections,
            voiceSelections, Machine.voice_ready]
  · rcases name with _ | s
    · simpa [step, nativeSetVoiceByName] using h
    · rcases Option.eq_none_or_eq_some (w.GetStringUTFChars m.log s) with hg | ⟨v, hg⟩
      · simp_all [step, nativeSetVoiceByName, jniGetStringUTFChars, Machine.record,
          lastCountedStatus_append, lastCountedStatus, countedSelections, voiceSelections,
          Machine.voice_ready]
      · simp only [step, nativeSetVoiceByName, engineSetVoiceByName, Machine.record,
          jniGetStringUTFChars, jniReleaseStringUTFChars, hg]
        clear h
        split_ifs with h1 <;>
          simp [lastCountedStatus_append, lastCountedStatus, countedSelections,
            voiceSelections, Machine.voice_ready, h1]

/-- Every finite sequence of managed-side calls preserves `FlagTracksSelections`. -/
theorem run_tracks (w : Env) (ops : List Op) (m : Machine) (h : FlagTracksSelections w m) :
    FlagTracksSelections w (run w m ops) := by
  induction ops generalizing m with
  | nil => simpa [run] using h
  | cons op rest ih => exact ih (step w m op) (step_tracks w m op h)

/-- The process start state satisfies `FlagTracksSelections`: the flag is clear
and no selection has been logged. -/
theorem init_tracks (w : Env) : FlagTracksSelections w Machine.init := by
  simp [FlagTracksSelections, Machine.init, Machine.voice_ready, lastCountedStatus,
    countedSelections, voiceSelections]

/-- Checking a log in two parts: the second part is checked on the history
extended by the first. -/
theorem answeredFrom_append (w : Env) (hist l l2 : List Entry) :
    answeredFrom w hist (l ++ l2) = (answeredFrom w hist l && answeredFrom w (hist ++ l) l2) := by
  induction l generalizing hist with
  | nil => simp [answeredFrom]
  | cons e rest ih => simp [answeredFrom, ih, Bool.and_assoc]

/-- Every managed-side call only appends to the log, and what it appends
records the collaborators' answers. -/
theorem step_answered (w : Env) (m : Machine) (op : Op) :
    (step w m op).log = m.log ++ emitted m (step w m op)
      ∧ answeredFrom w m.log (emitted m (step w m op)) = true := by
  rcases op with ⟨o, b, path, opts⟩ | ⟨text, tm, pm⟩ | ⟨name⟩
  · rcases path with _ | s
    · simp only [step, nativeInitialize, engineInitialize, engineSetVoiceByName, Machine.record]
      split_ifs with h1 h2 <;> simp [emitted, answeredFrom, Call.answered]
    · rcases Option.eq_none_or_eq_some (w.GetStringUTFChars m.log s) with hg | ⟨p, hg⟩ <;>
      · simp only [step, nativeInitialize, engineInitialize, engineSetVoiceByName, Machine.record,
          jniGetStringUTFChars, jniReleaseStringUTFChars, hg]
        split_ifs with h1 h2 <;> simp [emitted, answeredFrom, Call.answered, hg]
  · rcases text with _ | s
    · simp [step, nativeTextToPhonemes, emitted, answeredFrom]
    · rcases Option.eq_none_or_eq_some (w.GetStringUTFChars m.log s) with hg | ⟨t, hg⟩
      · simp [step, nativeTextToPhonemes, jniGetStringUTFChars, Machine.record, hg, emitted,
          answeredFrom, Call.answered]
      · simp only [step, nativeTextToPhonemes, engineTextToPhonemes, engineSetVoiceByName,
          Machine.record, jniGetStringUTFChars, jniReleaseStringUTFChars, jniNewStringUTF, hg]
        split_ifs with h1 h2 <;> split <;>
          simp_all [emitted, answeredFrom, Call.answered]
  · rcases name with _ | s
    · simp [step, nativeSetVoiceByName, emitted, answeredFrom]
    · rcases Option.eq_none_or_eq_some (w.GetStringUTFChars m.log s) with hg | ⟨v, hg⟩
      · simp [step, nativeSetVoiceByName, jniGetStringUTFChars, Machine.record, hg, emitted,
          answeredFrom, Call.answered]
      · simp [step, nativeSetVoiceByName, engineSetVoiceByName, Machine.record,
          jniGetStringUTFChars, jniReleaseStringUTFChars, hg, emitted, answeredFrom,
          Call.answered]

/-- A log that records the collaborators' answers still does so after any
finite sequence of managed-side calls. -/
theorem run_answered (w : Env) (ops : List Op) (m : Machine)
    (h : answeredFrom w [] m.log = true) : answeredFrom w [] (run w m ops).log = true := by
  induction ops generalizing m with
  | nil => simpa [run] using h
  | cons op rest ih =>
    apply ih (step w m op)
    have hs := step_answered w m op
    rw [hs.1, answeredFrom_append, h]
    simpa using hs.2

/-- Reading `answeredFrom` at one entry: a voice selection found anywhere in a
checked log carries the status the engine gives to that selection on the log
as it stood just before it. -/
theorem answeredFrom_selection (w : Env) (hist a b : List Entry) (site : Site) (name : String)
    (r flag : Int)
    (h : answeredFrom w hist (a ++ ⟨site, .espeak_SetVoiceByName name r, flag⟩ :: b) = true) :
    r = w.espeak_SetVoiceByName (hist ++ a) name := by
  rw [answeredFrom_append] at h
  simp only [answeredFrom, Call.answered, Bool.and_eq_true, decide_eq_true_eq] at h
  exact h.2.1

/-- The check of `answeredFrom` rejects a log line whose status is not the
engine's answer. -/
theorem answeredFrom_rejects_invented_status :
    answeredFrom envNoVoice []
      [⟨.nativeTextToPhonemes, .espeak_SetVoiceByName "en" 0, 0⟩] = false := by
  decide

/-- The bookkeeping of `leakFree` rejects a view that is acquired and never
released. -/
theorem leakFree_rejects_leak :
    leakFree [⟨.nativeSetVoiceByName, .GetStringUTFChars "en" (some "en"), 0⟩] = false := by
  decide

/-- The bookkeeping of `leakFree` rejects a second release of the same view. -/
theorem leakFree_rejects_double_release :
    leakFree [⟨.nativeSetVoiceByName, .GetStringUTFChars "en" (some "en"), 0⟩,
      ⟨.nativeSetVoiceByName, .ReleaseStringUTFChars (some "en") "en", 0⟩,
      ⟨.nativeSetVoiceByName, .ReleaseStringUTFChars (some "en") "en", 0⟩] = false := by
  decide

/-- The bookkeeping of `leakFree` rejects a release without an acquisition. -/
theorem leakFree_rejects_stray_release :
    leakFree [⟨.nativeInitialize, .ReleaseStringUTFChars none "en", 0⟩] = false := by
  decide

/-! ## The claims -/

/-- C1, as stated, fails: it is not true that `voice_ready` holds after every
`nativeInitialize` whose engine initialisation returned a positive status.
With the flag clear, a positive status and a failing selection of "en", the
flag is still clear on return. -/
theorem nativeInitialize_ready_counterexample :
    ¬ ∀ (w : Env) (output bufLength : Int) (path : Option String) (options : Int) (m : Machine),
        0 < (nativeInitialize w output bufLength path options m).1 →
        (nativeInitialize w output bufLength path options m).2.voice_ready = true := by
  intro h
  have h2 := h envNoVoice 0 0 none 0 Machine.init (by decide)
  revert h2
  decide

/-- C1, amended: whenever the engine answers the initialisation call of
`nativeInitialize` with a positive status, that status is the value returned,
exactly one voice selection is made, of "en" from inside `nativeInitialize`
with the status the engine gives it, and `voice_ready` holds on return if and
only if it held before the call or the engine answered that selection with
`EE_OK`. -/
theorem nativeInitialize_ready_iff (w : Env) (output bufLength : Int) (path : Option String)
    (options : Int) (m : Machine)
    (h : 0 < w.espeak_Initialize (m.log ++ acquireEntries w .nativeInitialize path m)
            output bufLength (path.bind (w.GetStringUTFChars m.log)) options) :
    (nativeInitialize w output bufLength path options m).1
        = w.espeak_Initialize (m.log ++ acquireEntries w .nativeInitialize path m)
            output bufLength (path.bind (w.GetStringUTFChars m.log)) options
    ∧ voiceSelections (emitted m (nativeInitialize w output bufLength path options m).2)
        = [(Site.nativeInitialize, "en",
            w.espeak_SetVoiceByName
              (m.log ++ acquireEntries w .nativeInitialize path m ++
                [⟨.nativeInitialize,
                  .espeak_Initialize output bufLength (path.bind (w.GetStringUTFChars m.log))
                    options
                    (w.espeak_Initialize (m.log ++ acquireEntries w .nativeInitialize path m)
                      output bufLength (path.bind (w.GetStringUTFChars m.log)) options),
                  m.voice_initialized⟩])
              "en")]
    ∧ ((nativeInitialize w output bufLength path options m).2.voice_ready = true
        ↔ (m.voice_ready = true
          ∨ w.espeak_SetVoiceByName
              (m.log ++ acquireEntries w .nativeInitialize path m ++
                [⟨.nativeInitialize,
                  .espeak_Initialize output bufLength (path.bind (w.GetStringUTFChars m.log))
                    options
                    (w.espeak_Initialize (m.log ++ acquireEntries w .nativeInitialize path m)
                      output bufLength (path.bind (w.GetStringUTFChars m.log)) options),
                  m.voice_initialized⟩])
              "en" = w.EE_OK)) := by
  rcases path with _ | s
  · simp only [acquireEntries, List.append_nil, Option.bind] at h
    simp only [nativeInitialize, engineInitialize, engineSetVoiceByName, Machine.record,
      acquireEntries, List.append_nil, Option.bind]
    rw [if_pos h]
    split_ifs with h2 <;> simp_all [emitted, voiceSelections, Machine.voice_ready]
  · rcases Option.eq_none_or_eq_some (w.GetStringUTFChars m.log s) with hg | ⟨p, hg⟩ <;>
    · simp only [acquireEntries, Option.bind, hg] at h
      simp only [nativeInitialize, engineInitialize, engineSetVoiceByName, Machine.record,
        jniGetStringUTFChars, jniReleaseStringUTFChars, acquireEntries, Option.bind, hg]
      rw [if_pos h]
      split_ifs with h2 <;> simp_all [emitted, voiceSelections, Machine.voice_ready]

/-- Witness for `nativeInitialize_ready_iff`: a successful initialisation with
a present path whose default voice selection fails, from the start state. -/
theorem nativeInitialize_ready_iff_witness :
    (0 < envNoVoice.espeak_Initialize (Machine.init.log ++ acquireEntries envNoVoice .nativeInitialize (some "/data") Machine.init)
            0 0 ((some "/data").bind (envNoVoice.GetStringUTFChars Machine.init.log)) 0) ∧
    ((nativeInitialize envNoVoice 0 0 (some "/data") 0 Machine.init).1
        = envNoVoice.espeak_Initialize (Machine.init.log ++ acquireEntries envNoVoice .nativeInitialize (some "/data") Machine.init)
            0 0 ((some "/data").bind (envNoVoice.GetStringUTFChars Machine.init.log)) 0
    ∧ voiceSelections (emitted Machine.init (nativeInitialize envNoVoice 0 0 (some "/data") 0 Machine.init).2)
        = [(Site.nativeInitialize, "en",
            envNoVoice.espeak_SetVoiceByName
              (Machine.init.log ++ acquireEntries envNoVoice .nativeInitialize (some "/data") Machine.init ++
                [⟨.nativeInitialize,
                  .espeak_Initialize 0 0 ((some "/data").bind (envNoVoice.GetStringUTFChars Machine.init.log))
                    0
                    (envNoVoice.espeak_Initialize (Machine.init.log ++ acquireEntries envNoVoice .nativeInitialize (some "/data") Machine.init)
                      0 0 ((some "/data").bind (envNoVoice.GetStringUTFChars Machine.init.log)) 0),
                  Machine.init.voice_initialized⟩])
              "en")]
    ∧ ((nativeInitialize envNoVoice 0 0 (some "/data") 0 Machine.init).2.voice_ready = true
        ↔ (Machine.init.voice_ready = true
          ∨ envNoVoice.espeak_SetVoiceByName
              (Machine.init.log ++ acquireEntries envNoVoice .nativeInitialize (some "/data") Machine.init ++
                [⟨.nativeInitialize,
                  .espeak_Initialize 0 0 ((some "/data").bind (envNoVoice.GetStringUTFChars Machine.init.log))
                    0
                    (envNoVoice.espeak_Initialize (Machine.init.log ++ acquireEntries envNoVoice .nativeInitialize (some "/data") Machine.init)
                      0 0 ((some "/data").bind (envNoVoice.GetStringUTFChars Machine.init.log)) 0),
                  Machine.init.voice_initialized⟩])
              "en" = envNoVoice.EE_OK))) :=
  ⟨by decide, nativeInitialize_ready_iff envNoVoice 0 0 (some "/data") 0 Machine.init (by decide)⟩

/-- C2, as stated, fails: after an explicit selection that succeeds and an
initialisation whose default selection fails, at least one attempt has been
made, `voice_ready` holds, and the most recent attempt did not return
`EE_OK`. -/
theorem last_attempt_invariant_counterexample :
    ¬ ∀ (w : Env) (ops : List Op), voiceSelections (run w Machine.init ops).log ≠ [] →
        ((run w Machine.init ops).voice_ready = true
          ↔ lastSelectionStatus (run w Machine.init ops).log = some w.EE_OK) := by
  intro h
  have h2 := h envEarlyVoice [.nativeSetVoiceByName (some "en"), .nativeInitialize 0 0 none 0]
    (by decide)
  revert h2
  decide

/-- C2, amended: from the start state, after any finite sequence of calls
against any engine, every entry of the log records the answer the engine (or
the JNI environment) gave to that call, and `voice_ready` holds if and only
if the most recent voice selection, failed default selections inside
`nativeInitialize` left aside, exists and returned `EE_OK`. -/
theorem counted_attempt_invariant (w : Env) (ops : List Op) :
    answeredFrom w [] (run w Machine.init ops).log = true
    ∧ ((run w Machine.init ops).voice_ready = true
      ↔ lastCountedStatus w (run w Machine.init ops).log = some w.EE_OK) :=
  ⟨run_answered w ops Machine.init (by simp [Machine.init, answeredFrom]),
    run_tracks w ops Machine.init (init_tracks w)⟩

/-- C3: when the name is present and its conversion yields the native view
`v`, `nativeSetVoiceByName` makes exactly one engine call, the voice selection
of `v`; it returns the status the engine gave to that call; and `voice_ready`
holds afterwards if and only if that status is `EE_OK`, whatever the flag was
before. -/
theorem nativeSetVoiceByName_forwards (w : Env) (s v : String) (m : Machine)
    (h : w.GetStringUTFChars m.log s = some v) :
    engineCalls (emitted m (nativeSetVoiceByName w (some s) m).2)
        = [.espeak_SetVoiceByName v (nativeSetVoiceByName w (some s) m).1]
      ∧ (nativeSetVoiceByName w (some s) m).1
          = w.espeak_SetVoiceByName (m.log ++
              [⟨.nativeSetVoiceByName, .GetStringUTFChars s (some v), m.voice_initialized⟩]) v
      ∧ ((nativeSetVoiceByName w (some s) m).2.voice_ready = true
          ↔ (nativeSetVoiceByName w (some s) m).1 = w.EE_OK) := by
  simp [nativeSetVoiceByName, jniGetStringUTFChars, h, engineSetVoiceByName,
    jniReleaseStringUTFChars, Machine.record, emitted, engineCalls, Call.isEngine,
    Machine.voice_ready]

/-- Witness for `nativeSetVoiceByName_forwards`: selecting "xx-invalid" in a
state where a voice was selected, against an engine that knows no voice. -/
theorem nativeSetVoiceByName_forwards_witness :
    envNoVoice.GetStringUTFChars Machine.ready.log "xx-invalid" = some "xx-invalid" ∧
    (engineCalls (emitted Machine.ready
          (nativeSetVoiceByName envNoVoice (some "xx-invalid") Machine.ready).2)
        = [.espeak_SetVoiceByName "xx-invalid"
            (nativeSetVoiceByName envNoVoice (some "xx-invalid") Machine.ready).1]
      ∧ (nativeSetVoiceByName envNoVoice (some "xx-invalid") Machine.ready).1
          = envNoVoice.espeak_SetVoiceByName (Machine.ready.log ++
              [⟨.nativeSetVoiceByName, .GetStringUTFChars "xx-invalid" (some "xx-invalid"),
                Machine.ready.voice_initialized⟩]) "xx-invalid"
      ∧ ((nativeSetVoiceByName envNoVoice (some "xx-invalid") Machine.ready).2.voice_ready = true
          ↔ (nativeSetVoiceByName envNoVoice (some "xx-invalid") Machine.ready).1
              = envNoVoice.EE_OK)) :=
  ⟨rfl, nativeSetVoiceByName_forwards envNoVoice "xx-invalid" "xx-invalid" Machine.ready rfl⟩

/-- C4: when the name is absent or its conversion fails, `nativeSetVoiceByName`
returns `EE_INTERNAL_ERROR`; when the text is absent or its conversion fails,
`nativeTextToPhonemes` returns absent; in all four cases no engine routine is
called and `voice_initialized` (hence `voice_ready`) keeps its value. -/
theorem null_paths_untouched (w : Env) (m : Machine) (voiceName text : Option String)
    (textMode phonemeMode : Int)
    (hn : voiceName = none ∨ ∃ s, voiceName = some s ∧ w.GetStringUTFChars m.log s = none)
    (ht : text = none ∨ ∃ s, text = some s ∧ w.GetStringUTFChars m.log s = none) :
    ((nativeSetVoiceByName w voiceName m).1 = w.EE_INTERNAL_ERROR
      ∧ engineCalls (emitted m (nativeSetVoiceByName w voiceName m).2) = []
      ∧ (nativeSetVoiceByName w voiceName m).2.voice_initialized = m.voice_initialized)
    ∧ ((nativeTextToPhonemes w text textMode phonemeMode m).1 = none
      ∧ engineCalls (emitted m (nativeTextToPhonemes w text textMode phonemeMode m).2) = []
      ∧ (nativeTextToPhonemes w text textMode phonemeMode m).2.voice_initialized
          = m.voice_initialized) := by
  constructor
  · rcases hn with rfl | ⟨s, rfl, hg⟩
    · simp [nativeSetVoiceByName, emitted, engineCalls]
    · simp [nativeSetVoiceByName, jniGetStringUTFChars, Machine.record, hg, emitted, engineCalls,
        Call.isEngine]
  · rcases ht with rfl | ⟨s, rfl, hg⟩
    · simp [nativeTextToPhonemes, emitted, engineCalls]
    · simp [nativeTextToPhonemes, jniGetStringUTFChars, Machine.record, hg, emitted, engineCalls,
        Call.isEngine]

/-- Witness for `null_paths_untouched`: a name whose conversion fails and an
absent text, in a state where a voice was selected. -/
theorem null_paths_untouched_witness :
    (some "en" = none
        ∨ ∃ s, some "en" = some s ∧ envNoChars.GetStringUTFChars Machine.ready.log s = none) ∧
    ((none : Option String) = none
        ∨ ∃ s, none = some s ∧ envNoChars.GetStringUTFChars Machine.ready.log s = none) ∧
    ((nativeSetVoiceByName envNoChars (some "en") Machine.ready).1 = envNoChars.EE_INTERNAL_ERROR
      ∧ engineCalls
          (emitted Machine.ready (nativeSetVoiceByName envNoChars (some "en") Machine.ready).2)
          = []
      ∧ (nativeSetVoiceByName envNoChars (some "en") Machine.ready).2.voice_initialized
          = Machine.ready.voice_initialized)
    ∧ ((nativeTextToPhonemes envNoChars none 0 0 Machine.ready).1 = none
      ∧ engineCalls
          (emitted Machine.ready (nativeTextToPhonemes envNoChars none 0 0 Machine.ready).2) = []
      ∧ (nativeTextToPhonemes envNoChars none 0 0 Machine.ready).2.voice_initialized
          = Machine.ready.voice_initialized) :=
  ⟨Or.inr ⟨"en", rfl, rfl⟩, Or.inl rfl,
    null_paths_untouched envNoChars Machine.ready (some "en") none 0 0
      (Or.inr ⟨"en", rfl, rfl⟩) (Or.inl rfl)⟩

/-- C5: in a `nativeTextToPhonemes` call whose text is present and converts to
the native view `t`: if `voice_ready` was false on entry, the engine calls are
one selection of "en", carrying the status the engine gives it, followed by
the text-to-phoneme conversion of `t`; the flag is 1 when the conversion is
called if the engine answered the selection with `EE_OK` and 0 otherwise, and
`voice_ready` holds on return if and only if it did.  If `voice_ready` was
true on entry, no selection is made, the flag is untouched when the
conversion is called, and `voice_ready` holds on return.  Every logged answer
is the collaborators' answer. -/
theorem fallback_before_phonemes (w : Env) (s t : String) (textMode phonemeMode : Int)
    (m : Machine) (h : w.GetStringUTFChars m.log s = some t) :
    (m.voice_ready = false →
      (∃ ph,
        engineCalls (emitted m (nativeTextToPhonemes w (some s) textMode phonemeMode m).2)
          = [.espeak_SetVoiceByName "en"
                (w.espeak_SetVoiceByName
                  (m.log ++ [⟨.nativeTextToPhonemes, .GetStringUTFChars s (some t),
                    m.voice_initialized⟩]) "en"),
             .espeak_TextToPhonemes t textMode phonemeMode ph])
      ∧ voiceSelections (emitted m (nativeTextToPhonemes w (some s) textMode phonemeMode m).2)
          = [(Site.nativeTextToPhonemes, "en",
              w.espeak_SetVoiceByName
                (m.log ++ [⟨.nativeTextToPhonemes, .GetStringUTFChars s (some t),
                  m.voice_initialized⟩]) "en")]
      ∧ phonemeCallFlags (emitted m (nativeTextToPhonemes w (some s) textMode phonemeMode m).2)
          = [if w.espeak_SetVoiceByName
                (m.log ++ [⟨.nativeTextToPhonemes, .GetStringUTFChars s (some t),
                  m.voice_initialized⟩]) "en" = w.EE_OK then 1 else 0]
      ∧ ((nativeTextToPhonemes w (some s) textMode phonemeMode m).2.voice_ready = true
          ↔ w.espeak_SetVoiceByName
              (m.log ++ [⟨.nativeTextToPhonemes, .GetStringUTFChars s (some t),
                m.voice_initialized⟩]) "en" = w.EE_OK))
    ∧ (m.voice_ready = true →
        voiceSelections (emitted m (nativeTextToPhonemes w (some s) textMode phonemeMode m).2) = []
        ∧ phonemeCallFlags (emitted m (nativeTextToPhonemes w (some s) textMode phonemeMode m).2)
              = [m.voice_initialized]
        ∧ (nativeTextToPhonemes w (some s) textMode phonemeMode m).2.voice_ready = true)
    ∧ answeredFrom w m.log
        (emitted m (nativeTextToPhonemes w (some s) textMode phonemeMode m).2) = true := by
  simp only [nativeTextToPhonemes, engineTextToPhonemes, engineSetVoiceByName, Machine.record,
    jniGetStringUTFChars, jniReleaseStringUTFChars, jniNewStringUTF, h]
  refine ⟨?_, ?_, ?_⟩
  · intro hr
    have h0 : m.voice_initialized = 0 := by simpa [Machine.voice_ready] using hr
    rw [if_pos h0]
    split_ifs with h2 <;> split <;>
      simp_all [emitted, engineCalls, Call.isEngine, voiceSelections, phonemeCallFlags,
        Machine.voice_ready]
  · intro hr
    have h0 : ¬ m.voice_initialized = 0 := by simpa [Machine.voice_ready] using hr
    rw [if_neg h0]
    split <;>
      simp_all [emitted, engineCalls, Call.isEngine, voiceSelections, phonemeCallFlags,
        Machine.voice_ready]
  · split_ifs with h1 h2 <;> split <;> simp_all [emitted, answeredFrom, Call.answered]

/-- Witness for `fallback_before_phonemes`: "hello" from the start state against
an engine in which everything succeeds, and "hello" from a state where a voice
was selected. -/
theorem fallback_before_phonemes_witness :
    ((envOk.GetStringUTFChars Machine.init.log "hello" = some "hello") ∧
    ((Machine.init.voice_ready = false →
      (∃ ph,
        engineCalls (emitted Machine.init (nativeTextToPhonemes envOk (some "hello") 0 0 Machine.init).2)
          = [.espeak_SetVoiceByName "en"
                (envOk.espeak_SetVoiceByName
                  (Machine.init.log ++ [⟨.nativeTextToPhonemes, .GetStringUTFChars "hello" (some "hello"),
                    Machine.init.voice_initialized⟩]) "en"),
             .espeak_TextToPhonemes "hello" 0 0 ph])
      ∧ voiceSelections (emitted Machine.init (nativeTextToPhonemes envOk (some "hello") 0 0 Machine.init).2)
          = [(Site.nativeTextToPhonemes, "en",
              envOk.espeak_SetVoiceByName
                (Machine.init.log ++ [⟨.nativeTextToPhonemes, .GetStringUTFChars "hello" (some "hello"),
                  Machine.init.voice_initialized⟩]) "en")]
      ∧ phonemeCallFlags (emitted Machine.init (nativeTextToPhonemes envOk (some "hello") 0 0 Machine.init).2)
          = [if envOk.espeak_SetVoiceByName
                (Machine.init.log ++ [⟨.nativeTextToPhonemes, .GetStringUTFChars "hello" (some "hello"),
                  Machine.init.voice_initialized⟩]) "en" = envOk.EE_OK then 1 else 0]
      ∧ ((nativeTextToPhonemes envOk (some "hello") 0 0 Machine.init).2.voice_ready = true
          ↔ envOk.espeak_SetVoiceByName
              (Machine.init.log ++ [⟨.nativeTextToPhonemes, .GetStringUTFChars "hello" (some "hello"),
                Machine.init.voice_initialized⟩]) "en" = envOk.EE_OK))
    ∧ (Machine.init.voice_ready = true →
        voiceSelections (emitted Machine.init (nativeTextToPhonemes envOk (some "hello") 0 0 Machine.init).2) = []
        ∧ phonemeCallFlags (emitted Machine.init (nativeTextToPhonemes envOk (some "hello") 0 0 Machine.init).2)
              = [Machine.init.voice_initialized]
        ∧ (nativeTextToPhonemes envOk (some "hello") 0 0 Machine.init).2.voice_ready = true)
    ∧ answeredFrom envOk Machine.init.log
        (emitted Machine.init (nativeTextToPhonemes envOk (some "hello") 0 0 Machine.init).2) = true)) ∧
    ((envNoVoice.GetStringUTFChars Machine.ready.log "hello" = some "hello") ∧
    ((Machine.ready.voice_ready = false →
      (∃ ph,
        engineCalls (emitted Machine.ready (nativeTextToPhonemes envNoVoice (some "hello") 0 0 Machine.ready).2)
          = [.espeak_SetVoiceByName "en"
                (envNoVoice.espeak_SetVoiceByName
                  (Machine.ready.log ++ [⟨.nativeTextToPhonemes, .GetStringUTFChars "hello" (some "hello"),
                    Machine.ready.voice_initialized⟩]) "en"),
             .espeak_TextToPhonemes "hello" 0 0 ph])
      ∧ voiceSelections (emitted Machine.ready (nativeTextToPhonemes envNoVoice (some "hello") 0 0 Machine.ready).2)
          = [(Site.nativeTextToPhonemes, "en",
              envNoVoice.espeak_SetVoiceByName
                (Machine.ready.log ++ [⟨.nativeTextToPhonemes, .GetStringUTFChars "hello" (some "hello"),
                  Machine.ready.voice_initialized⟩]) "en")]
      ∧ phonemeCallFlags (emitted Machine.ready (nativeTextToPhonemes envNoVoice (some "hello") 0 0 Machine.ready).2)
          = [if envNoVoice.espeak_SetVoiceByName
                (Machine.ready.log ++ [⟨.nativeTextToPhonemes, .GetStringUTFChars "hello" (some "hello"),
                  Machine.ready.voice_initialized⟩]) "en" = envNoVoice.EE_OK then 1 else 0]
      ∧ ((nativeTextToPhonemes envNoVoice (some "hello") 0 0 Machine.ready).2.voice_ready = true
          ↔ envNoVoice.espeak_SetVoiceByName
              (Machine.ready.log ++ [⟨.nativeTextToPhonemes, .GetStringUTFChars "hello" (some "hello"),
                Machine.ready.voice_initialized⟩]) "en" = envNoVoice.EE_OK))
    ∧ (Machine.ready.voice_ready = true →
        voiceSelections (emitted Machine.ready (nativeTextToPhonemes envNoVoice (some "hello") 0 0 Machine.ready).2) = []
        ∧ phonemeCallFlags (emitted Machine.ready (nativeTextToPhonemes envNoVoice (some "hello") 0 0 Machine.ready).2)
              = [Machine.ready.voice_initialized]
        ∧ (nativeTextToPhonemes envNoVoice (some "hello") 0 0 Machine.ready).2.voice_ready = true)
    ∧ answeredFrom envNoVoice Machine.ready.log
        (emitted Machine.ready (nativeTextToPhonemes envNoVoice (some "hello") 0 0 Machine.ready).2) = true)) :=
  ⟨⟨rfl, fallback_before_phonemes envOk "hello" "hello" 0 0 Machine.init rfl⟩,
    ⟨rfl, fallback_before_phonemes envNoVoice "hello" "hello" 0 0 Machine.ready rfl⟩⟩

/-- C6: from a state in which `voice_ready` holds, `nativeInitialize` and
`nativeTextToPhonemes` return with `voice_ready` still holding, for all
arguments and engine answers; and if `nativeSetVoiceByName` returns with
`voice_ready` false, then it made exactly one engine call, a voice selection,
whose status was not `EE_OK` and is the value returned. -/
theorem ready_reset_only_by_failed_selection (w : Env) (m : Machine)
    (h : m.voice_ready = true) :
    (∀ (output bufLength : Int) (path : Option String) (options : Int),
        (nativeInitialize w output bufLength path options m).2.voice_ready = true)
    ∧ (∀ (text : Option String) (textMode phonemeMode : Int),
        (nativeTextToPhonemes w text textMode phonemeMode m).2.voice_ready = true)
    ∧ (∀ voiceName : Option String,
        (nativeSetVoiceByName w voiceName m).2.voice_ready = false →
        ∃ v r, engineCalls (emitted m (nativeSetVoiceByName w voiceName m).2)
                = [.espeak_SetVoiceByName v r]
          ∧ r ≠ w.EE_OK ∧ (nativeSetVoiceByName w voiceName m).1 = r) := by
  have h0 : ¬ m.voice_initialized = 0 := by simpa [Machine.voice_ready] using h
  refine ⟨?_, ?_, ?_⟩
  · intro o b path opts
    rcases path with _ | s
    · simp only [nativeInitialize, engineInitialize, engineSetVoiceByName, Machine.record]
      split_ifs <;> simp_all [Machine.voice_ready]
    · rcases Option.eq_none_or_eq_some (w.GetStringUTFChars m.log s) with hg | ⟨p, hg⟩ <;>
      · simp only [nativeInitialize, engineInitialize, engineSetVoiceByName, Machine.record,
          jniGetStringUTFChars, jniReleaseStringUTFChars, hg]
        split_ifs <;> simp_all [Machine.voice_ready]
  · intro text tm pm
    rcases text with _ | s
    · simpa [nativeTextToPhonemes] using h
    · rcases Option.eq_none_or_eq_some (w.GetStringUTFChars m.log s) with hg | ⟨t, hg⟩
      · simp [nativeTextToPhonemes, jniGetStringUTFChars, Machine.record, hg, Machine.voice_ready,
          h0]
      · simp only [nativeTextToPhonemes, engineTextToPhonemes, engineSetVoiceByName,
          Machine.record, jniGetStringUTFChars, jniReleaseStringUTFChars, jniNewStringUTF, hg]
        rw [if_neg h0]
        split <;> simp_all [Machine.voice_ready]
  · intro name
    rcases name with _ | s
    · simp [nativeSetVoiceByName, h]
    · rcases Option.eq_none_or_eq_some (w.GetStringUTFChars m.log s) with hg | ⟨v, hg⟩
      · simp [nativeSetVoiceByName, jniGetStringUTFChars, Machine.record, hg, Machine.voice_ready,
          h0]
      · simp only [nativeSetVoiceByName, engineSetVoiceByName, Machine.record,
          jniGetStringUTFChars, jniReleaseStringUTFChars, hg]
        split_ifs with h1 <;>
          simp [Machine.voice_ready, emitted, engineCalls, Call.isEngine, h1]

/-- Witness for `ready_reset_only_by_failed_selection`: a state where a voice
was selected, against an engine whose every voice selection fails. -/
theorem ready_reset_only_by_failed_selection_witness :
    Machine.ready.voice_ready = true ∧
    ((∀ (output bufLength : Int) (path : Option String) (options : Int),
        (nativeInitialize envNoVoice output bufLength path options Machine.ready).2.voice_ready
          = true)
    ∧ (∀ (text : Option String) (textMode phonemeMode : Int),
        (nativeTextToPhonemes envNoVoice text textMode phonemeMode Machine.ready).2.voice_ready
          = true)
    ∧ (∀ voiceName : Option String,
        (nativeSetVoiceByName envNoVoice voiceName Machine.ready).2.voice_ready = false →
        ∃ v r, engineCalls (emitted Machine.ready
                  (nativeSetVoiceByName envNoVoice voiceName Machine.ready).2)
                = [.espeak_SetVoiceByName v r]
          ∧ r ≠ envNoVoice.EE_OK
          ∧ (nativeSetVoiceByName envNoVoice voiceName Machine.ready).1 = r)) :=
  ⟨by decide, ready_reset_only_by_failed_selection envNoVoice Machine.ready (by decide)⟩

/-- C8, as stated, fails: it is not true that every `nativeTextToPhonemes` call
with a present text and `voice_ready` false attempts the fallback selection of
"en" whether or not the string conversion succeeds.  When the conversion of
"hello" fails, no voice selection is made at all. -/
theorem fallback_before_chars_counterexample :
    ¬ ∀ (w : Env) (s : String) (textMode phonemeMode : Int) (m : Machine),
        m.voice_ready = false →
        ∃ r, voiceSelections (emitted m (nativeTextToPhonemes w (some s) textMode phonemeMode m).2)
              = [(Site.nativeTextToPhonemes, "en", r)]
          ∧ (r = w.EE_OK →
              (nativeTextToPhonemes w (some s) textMode phonemeMode m).2.voice_ready = true) := by
  intro h
  obtain ⟨r, h1, _⟩ := h envNoChars "hello" 0 0 Machine.init (by decide)
  have h2 : voiceSelections
      (emitted Machine.init (nativeTextToPhonemes envNoChars (some "hello") 0 0 Machine.init).2)
      = [] := by decide
  rw [h2] at h1
  cases h1

/-- C8, amended: in `nativeTextToPhonemes` with a present text and `voice_ready`
false on entry, the text is converted first.  When the conversion yields a
view `t`, the calls made start with that conversion, then the selection of
"en" with the status the engine gives it, then the text-to-phoneme conversion
of `t`, and `voice_ready` holds on return if and only if the engine answered
the selection with `EE_OK`.  When the conversion fails it is the only call
made, and `voice_ready` is still false on return.  Every logged answer is the
collaborators' answer. -/
theorem fallback_after_chars (w : Env) (s : String) (textMode phonemeMode : Int) (m : Machine)
    (h : m.voice_ready = false) :
    (∀ t, w.GetStringUTFChars m.log s = some t →
      (∃ ph rest,
        (emitted m (nativeTextToPhonemes w (some s) textMode phonemeMode m).2).map Entry.call
          = .GetStringUTFChars s (some t)
              :: .espeak_SetVoiceByName "en"
                  (w.espeak_SetVoiceByName
                    (m.log ++ [⟨.nativeTextToPhonemes, .GetStringUTFChars s (some t),
                      m.voice_initialized⟩]) "en")
              :: .espeak_TextToPhonemes t textMode phonemeMode ph :: rest)
      ∧ ((nativeTextToPhonemes w (some s) textMode phonemeMode m).2.voice_ready = true
          ↔ w.espeak_SetVoiceByName
              (m.log ++ [⟨.nativeTextToPhonemes, .GetStringUTFChars s (some t),
                m.voice_initialized⟩]) "en" = w.EE_OK))
    ∧ (w.GetStringUTFChars m.log s = none →
        (emitted m (nativeTextToPhonemes w (some s) textMode phonemeMode m).2).map Entry.call
          = [.GetStringUTFChars s none]
        ∧ (nativeTextToPhonemes w (some s) textMode phonemeMode m).2.voice_ready = false)
    ∧ answeredFrom w m.log
        (emitted m (nativeTextToPhonemes w (some s) textMode phonemeMode m).2) = true := by
  have h0 : m.voice_initialized = 0 := by simpa [Machine.voice_ready] using h
  refine ⟨?_, ?_, ?_⟩
  · intro t hg
    simp only [nativeTextToPhonemes, engineTextToPhonemes, engineSetVoiceByName, Machine.record,
      jniGetStringUTFChars, jniReleaseStringUTFChars, jniNewStringUTF, hg]
    rw [if_pos h0]
    split_ifs with h2 <;> split <;> simp_all [emitted, Machine.voice_ready]
  · intro hg
    simp [nativeTextToPhonemes, jniGetStringUTFChars, Machine.record, hg, emitted,
      Machine.voice_ready, h0]
  · rcases Option.eq_none_or_eq_some (w.GetStringUTFChars m.log s) with hg | ⟨t, hg⟩
    · simp [nativeTextToPhonemes, jniGetStringUTFChars, Machine.record, hg, emitted,
        answeredFrom, Call.answered]
    · simp only [nativeTextToPhonemes, engineTextToPhonemes, engineSetVoiceByName,
        Machine.record, jniGetStringUTFChars, jniReleaseStringUTFChars, jniNewStringUTF, hg]
      split_ifs <;> split <;> simp_all [emitted, answeredFrom, Call.answered]

/-- Witness for `fallback_after_chars`: "hello" from the start state, once with
a string conversion that succeeds and once with one that fails. -/
theorem fallback_after_chars_witness :
    ((Machine.init.voice_ready = false) ∧
    ((∀ t, envOk.GetStringUTFChars Machine.init.log "hello" = some t →
      (∃ ph rest,
        (emitted Machine.init (nativeTextToPhonemes envOk (some "hello") 0 0 Machine.init).2).map Entry.call
          = .GetStringUTFChars "hello" (some t)
              :: .espeak_SetVoiceByName "en"
                  (envOk.espeak_SetVoiceByName
                    (Machine.init.log ++ [⟨.nativeTextToPhonemes, .GetStringUTFChars "hello" (some t),
                      Machine.init.voice_initialized⟩]) "en")
              :: .espeak_TextToPhonemes t 0 0 ph :: rest)
      ∧ ((nativeTextToPhonemes envOk (some "hello") 0 0 Machine.init).2.voice_ready = true
          ↔ envOk.espeak_SetVoiceByName
              (Machine.init.log ++ [⟨.nativeTextToPhonemes, .GetStringUTFChars "hello" (some t),
                Machine.init.voice_initialized⟩]) "en" = envOk.EE_OK))
    ∧ (envOk.GetStringUTFChars Machine.init.log "hello" = none →
        (emitted Machine.init (nativeTextToPhonemes envOk (some "hello") 0 0 Machine.init).2).map Entry.call
          = [.GetStringUTFChars "hello" none]
        ∧ (nativeTextToPhonemes envOk (some "hello") 0 0 Machine.init).2.voice_ready = false)
    ∧ answeredFrom envOk Machine.init.log
        (emitted Machine.init (nativeTextToPhonemes envOk (some "hello") 0 0 Machine.init).2) = true)) ∧
    ((Machine.init.voice_ready = false) ∧
    ((∀ t, envNoChars.GetStringUTFChars Machine.init.log "hello" = some t →
      (∃ ph rest,
        (emitted Machine.init (nativeTextToPhonemes envNoChars (some "hello") 0 0 Machine.init).2).map Entry.call
          = .GetStringUTFChars "hello" (some t)
              :: .espeak_SetVoiceByName "en"
                  (envNoChars.espeak_SetVoiceByName
                    (Machine.init.log ++ [⟨.nativeTextToPhonemes, .GetStringUTFChars "hello" (some t),
                      Machine.init.voice_initialized⟩]) "en")
              :: .espeak_TextToPhonemes t 0 0 ph :: rest)
      ∧ ((nativeTextToPhonemes envNoChars (some "hello") 0 0 Machine.init).2.voice_ready = true
          ↔ envNoChars.espeak_SetVoiceByName
              (Machine.init.log ++ [⟨.nativeTextToPhonemes, .GetStringUTFChars "hello" (some t),
                Machine.init.voice_initialized⟩]) "en" = envNoChars.EE_OK))
    ∧ (envNoChars.GetStringUTFChars Machine.init.log "hello" = none →
        (emitted Machine.init (nativeTextToPhonemes envNoChars (some "hello") 0 0 Machine.init).2).map Entry.call
          = [.GetStringUTFChars "hello" none]
        ∧ (nativeTextToPhonemes envNoChars (some "hello") 0 0 Machine.init).2.voice_ready = false)
    ∧ answeredFrom envNoChars Machine.init.log
        (emitted Machine.init (nativeTextToPhonemes envNoChars (some "hello") 0 0 Machine.init).2) = true)) :=
  ⟨⟨by decide, fallback_after_chars envOk "hello" 0 0 Machine.init (by decide)⟩,
    ⟨by decide, fallback_after_chars envNoChars "hello" 0 0 Machine.init (by decide)⟩⟩

/-- C9: `nativeInitialize` returns the status that the engine gives to its
single initialisation call, which receives the given output mode, buffer
length and options and the native view of the path (`NULL` when the path is
absent or its conversion fails).  When that status is positive the only other
engine call is one selection of "en", carrying the status the engine gives
it; when it is not positive there is no other engine call and
`voice_initialized` keeps its value.  Every logged answer is the
collaborators' answer. -/
theorem nativeInitialize_forwards (w : Env) (output bufLength : Int) (path : Option String)
    (options : Int) (m : Machine) :
    (nativeInitialize w output bufLength path options m).1
        = w.espeak_Initialize (m.log ++ acquireEntries w .nativeInitialize path m)
            output bufLength (path.bind (w.GetStringUTFChars m.log)) options
    ∧ (0 < (nativeInitialize w output bufLength path options m).1 →
        engineCalls (emitted m (nativeInitialize w output bufLength path options m).2)
          = [.espeak_Initialize output bufLength (path.bind (w.GetStringUTFChars m.log)) options
                (nativeInitialize w output bufLength path options m).1,
             .espeak_SetVoiceByName "en"
                (w.espeak_SetVoiceByName
                  (m.log ++ acquireEntries w .nativeInitialize path m ++
                    [⟨.nativeInitialize,
                      .espeak_Initialize output bufLength (path.bind (w.GetStringUTFChars m.log))
                        options (nativeInitialize w output bufLength path options m).1,
                      m.voice_initialized⟩])
                  "en")])
    ∧ ((nativeInitialize w output bufLength path options m).1 ≤ 0 →
        engineCalls (emitted m (nativeInitialize w output bufLength path options m).2)
          = [.espeak_Initialize output bufLength (path.bind (w.GetStringUTFChars m.log)) options
              (nativeInitialize w output bufLength path options m).1]
        ∧ (nativeInitialize w output bufLength path options m).2.voice_initialized
            = m.voice_initialized)
    ∧ (engineCalls (emitted m (nativeInitialize w output bufLength none options m).2)).head?
        = some (.espeak_Initialize output bufLength none options
            (w.espeak_Initialize m.log output bufLength none options))
    ∧ answeredFrom w m.log (emitted m (nativeInitialize w output bufLength path options m).2)
        = true := by
  refine ⟨?_, ?_, ?_, ?_, ?_⟩
  · rcases path with _ | s
    · simp [nativeInitialize, engineInitialize, acquireEntries]
    · rcases Option.eq_none_or_eq_some (w.GetStringUTFChars m.log s) with hg | ⟨p, hg⟩ <;>
        simp [nativeInitialize, engineInitialize, acquireEntries, jniGetStringUTFChars,
          Machine.record, hg]
  · rcases path with _ | s
    · simp only [nativeInitialize, engineInitialize, engineSetVoiceByName, Machine.record]
      split_ifs with h1 h2 <;> simp_all [emitted, engineCalls, Call.isEngine, acquireEntries]
    · rcases Option.eq_none_or_eq_some (w.GetStringUTFChars m.log s) with hg | ⟨p, hg⟩ <;>
      · simp only [nativeInitialize, engineInitialize, engineSetVoiceByName, Machine.record,
          jniGetStringUTFChars, jniReleaseStringUTFChars, hg]
        split_ifs with h1 h2 <;> simp_all [emitted, engineCalls, Call.isEngine, acquireEntries]
  · rcases path with _ | s
    · simp only [nativeInitialize, engineInitialize, engineSetVoiceByName, Machine.record]
      split_ifs with h1 h2 <;> simp_all [emitted, engineCalls, Call.isEngine, not_le.mpr]
    · rcases Option.eq_none_or_eq_some (w.GetStringUTFChars m.log s) with hg | ⟨p, hg⟩ <;>
      · simp only [nativeInitialize, engineInitialize, engineSetVoiceByName, Machine.record,
          jniGetStringUTFChars, jniReleaseStringUTFChars, hg]
        split_ifs with h1 h2 <;> simp_all [emitted, engineCalls, Call.isEngine, not_le.mpr]
  · simp only [nativeInitialize, engineInitialize, engineSetVoiceByName, Machine.record]
    split_ifs with h1 h2 <;> simp_all [emitted, engineCalls, Call.isEngine]
  · rcases path with _ | s
    · simp only [nativeInitialize, engineInitialize, engineSetVoiceByName, Machine.record]
      split_ifs with h1 h2 <;> simp [emitted, answeredFrom, Call.answered]
    · rcases Option.eq_none_or_eq_some (w.GetStringUTFChars m.log s) with hg | ⟨p, hg⟩ <;>
      · simp only [nativeInitialize, engineInitialize, engineSetVoiceByName, Machine.record,
          jniGetStringUTFChars, jniReleaseStringUTFChars, hg]
        split_ifs with h1 h2 <;> simp [emitted, answeredFrom, Call.answered, hg]

/-- C10: in a `nativeTextToPhonemes` call whose text is present and converts to
the native view `t`, for every state and every engine answer (so also after a
failed fallback selection), the engine text-to-phoneme conversion is called
exactly once, on `t` with the given modes, and the logged answer is the
engine's answer on the log as it stood (`pre` is what the call had logged
before).  The result is that answer passed through `NewStringUTF`: absent
when the engine reports no phonemes, in which case no managed string is
created, and otherwise the answer of the JNI environment to the creation of a
managed string from exactly the phoneme string, which is the only creation
made. -/
theorem phonemes_forwarded (w : Env) (s t : String) (textMode phonemeMode : Int) (m : Machine)
    (h : w.GetStringUTFChars m.log s = some t) :
    ∃ pre f post,
      emitted m (nativeTextToPhonemes w (some s) textMode phonemeMode m).2
        = pre ++ ⟨.nativeTextToPhonemes,
            .espeak_TextToPhonemes t textMode phonemeMode
              (w.espeak_TextToPhonemes (m.log ++ pre) t textMode phonemeMode), f⟩ :: post
      ∧ phonemeCalls (emitted m (nativeTextToPhonemes w (some s) textMode phonemeMode m).2)
        = [.espeak_TextToPhonemes t textMode phonemeMode
            (w.espeak_TextToPhonemes (m.log ++ pre) t textMode phonemeMode)]
      ∧ (nativeTextToPhonemes w (some s) textMode phonemeMode m).1
        = (w.espeak_TextToPhonemes (m.log ++ pre) t textMode phonemeMode).bind
            (w.NewStringUTF (m.log ++ pre ++ [⟨.nativeTextToPhonemes,
              .espeak_TextToPhonemes t textMode phonemeMode
                (w.espeak_TextToPhonemes (m.log ++ pre) t textMode phonemeMode), f⟩]))
      ∧ newStringCalls (emitted m (nativeTextToPhonemes w (some s) textMode phonemeMode m).2)
        = ((w.espeak_TextToPhonemes (m.log ++ pre) t textMode phonemeMode).map fun p =>
            Call.NewStringUTF p (nativeTextToPhonemes w (some s) textMode phonemeMode m).1).toList
      ∧ answeredFrom w m.log
          (emitted m (nativeTextToPhonemes w (some s) textMode phonemeMode m).2) = true := by
  simp only [nativeTextToPhonemes, engineTextToPhonemes, engineSetVoiceByName, Machine.record,
    jniGetStringUTFChars, jniReleaseStringUTFChars, jniNewStringUTF, h]
  split_ifs with h1 h2 <;> split <;>
    simp only [emitted, List.append_assoc, List.singleton_append, List.cons_append,
      List.nil_append, List.drop_left] <;>
    first
      | refine ⟨[_], _, [_, _], rfl, ?_⟩
      | refine ⟨[_], _, [_], rfl, ?_⟩
      | refine ⟨[_, _], _, [_, _], rfl, ?_⟩
      | refine ⟨[_, _], _, [_], rfl, ?_⟩
  all_goals simp_all [phonemeCalls, newStringCalls, answeredFrom, Call.answered]

/-- Witness for `phonemes_forwarded`: "hello" from the start state against an
engine whose voice selections all fail, and "hello" against an engine that
finds no phonemes. -/
theorem phonemes_forwarded_witness :
    ((envNoVoice.GetStringUTFChars Machine.init.log "hello" = some "hello") ∧
    (∃ pre f post,
      emitted Machine.init (nativeTextToPhonemes envNoVoice (some "hello") 0 0 Machine.init).2
        = pre ++ ⟨.nativeTextToPhonemes,
            .espeak_TextToPhonemes "hello" 0 0
              (envNoVoice.espeak_TextToPhonemes (Machine.init.log ++ pre) "hello" 0 0), f⟩ :: post
      ∧ phonemeCalls (emitted Machine.init (nativeTextToPhonemes envNoVoice (some "hello") 0 0 Machine.init).2)
        = [.espeak_TextToPhonemes "hello" 0 0
            (envNoVoice.espeak_TextToPhonemes (Machine.init.log ++ pre) "hello" 0 0)]
      ∧ (nativeTextToPhonemes envNoVoice (some "hello") 0 0 Machine.init).1
        = (envNoVoice.espeak_TextToPhonemes (Machine.init.log ++ pre) "hello" 0 0).bind
            (envNoVoice.NewStringUTF (Machine.init.log ++ pre ++ [⟨.nativeTextToPhonemes,
              .espeak_TextToPhonemes "hello" 0 0
                (envNoVoice.espeak_TextToPhonemes (Machine.init.log ++ pre) "hello" 0 0), f⟩]))
      ∧ newStringCalls (emitted Machine.init (nativeTextToPhonemes envNoVoice (some "hello") 0 0 Machine.init).2)
        = ((envNoVoice.espeak_TextToPhonemes (Machine.init.log ++ pre) "hello" 0 0).map fun p =>
            Call.NewStringUTF p (nativeTextToPhonemes envNoVoice (some "hello") 0 0 Machine.init).1).toList
      ∧ answeredFrom envNoVoice Machine.init.log
          (emitted Machine.init (nativeTextToPhonemes envNoVoice (some "hello") 0 0 Machine.init).2) = true)) ∧
    ((envNoPhonemes.GetStringUTFChars Machine.ready.log "hello" = some "hello") ∧
    (∃ pre f post,
      emitted Machine.ready (nativeTextToPhonemes envNoPhonemes (some "hello") 0 0 Machine.ready).2
        = pre ++ ⟨.nativeTextToPhonemes,
            .espeak_TextToPhonemes "hello" 0 0
              (envNoPhonemes.espeak_TextToPhonemes (Machine.ready.log ++ pre) "hello" 0 0), f⟩ :: post
      ∧ phonemeCalls (emitted Machine.ready (nativeTextToPhonemes envNoPhonemes (some "hello") 0 0 Machine.ready).2)
        = [.espeak_TextToPhonemes "hello" 0 0
            (envNoPhonemes.espeak_TextToPhonemes (Machine.ready.log ++ pre) "hello" 0 0)]
      ∧ (nativeTextToPhonemes envNoPhonemes (some "hello") 0 0 Machine.ready).1
        = (envNoPhonemes.espeak_TextToPhonemes (Machine.ready.log ++ pre) "hello" 0 0).bind
            (envNoPhonemes.NewStringUTF (Machine.ready.log ++ pre ++ [⟨.nativeTextToPhonemes,
              .espeak_TextToPhonemes "hello" 0 0
                (envNoPhonemes.espeak_TextToPhonemes (Machine.ready.log ++ pre) "hello" 0 0), f⟩]))
      ∧ newStringCalls (emitted Machine.ready (nativeTextToPhonemes envNoPhonemes (some "hello") 0 0 Machine.ready).2)
        = ((envNoPhonemes.espeak_TextToPhonemes (Machine.ready.log ++ pre) "hello" 0 0).map fun p =>
            Call.NewStringUTF p (nativeTextToPhonemes envNoPhonemes (some "hello") 0 0 Machine.ready).1).toList
      ∧ answeredFrom envNoPhonemes Machine.ready.log
          (emitted Machine.ready (nativeTextToPhonemes envNoPhonemes (some "hello") 0 0 Machine.ready).2) = true)) :=
  ⟨⟨rfl, phonemes_forwarded envNoVoice "hello" "hello" 0 0 Machine.init rfl⟩,
    ⟨rfl, phonemes_forwarded envNoPhonemes "hello" "hello" 0 0 Machine.ready rfl⟩⟩

/-! ## The scenarios of the specification, evaluated -/

/-- Initialisation with an absent path against an engine in which everything
succeeds returns the sample rate and sets the flag. -/
theorem scenario_init_ok :
    (nativeInitialize envOk 0 0 none 0 Machine.init).1 = 22050
    ∧ (nativeInitialize envOk 0 0 none 0 Machine.init).2.voice_ready = true := by
  decide

/-- An explicit selection that fails clears a flag that was set. -/
theorem scenario_invalid_voice :
    (nativeSetVoiceByName envNoVoice (some "xx-invalid") Machine.ready).1 = 2
    ∧ (nativeSetVoiceByName envNoVoice (some "xx-invalid") Machine.ready).2.voice_ready = false := by
  decide

/-- After a successful initialisation, "hello" yields a phoneme string. -/
theorem scenario_phonemes_after_init :
    (nativeTextToPhonemes envOk (some "hello") 0 0
        (nativeInitialize envOk 0 0 none 0 Machine.init).2).1 = some "hello" := by
  decide

/-- When the engine finds no phonemes the result is absent. -/
theorem scenario_no_phonemes :
    (nativeTextToPhonemes envNoPhonemes (some "hello") 0 0 Machine.init).1 = none := by
  decide

/-- A failed initialisation makes no voice selection and leaves the flag clear. -/
theorem scenario_init_fails :
    (nativeInitialize envNoInit 0 0 none 0 Machine.init).1 = -1
    ∧ voiceSelections (nativeInitialize envNoInit 0 0 none 0 Machine.init).2.log = []
    ∧ (nativeInitialize envNoInit 0 0 none 0 Machine.init).2.voice_ready = false := by
  decide

end EspeakJni
